import Mathlib

/-!
Verification of `src/lvgl/src/support.rs` from `lv_binding_rust`:
the event taxonomy (decode/encode between native event codes and the typed
`Event` enum), the callback trampoline, the error-model conversions, the
`Color` channel accessors, and the enum-to-integer constant tables.

Machine integers are modelled as `Nat`; `lv_event_code_t` is a `u32`,
represented as a `Nat` (the match in the source compares it against a fixed
set of constants, so no arithmetic overflow is involved). Fallible Rust
conversions (`TryFrom`) are modelled with `Except`.
-/

namespace LvglSupport

/-- Modelled from the spec: the native integer constant for the
`LV_EVENT_PRESSED` event code of the build configuration (the `lvgl_sys`
bindgen constants are not part of the provided sources); values follow the
LVGL v8 `lv_event_code_t` enumeration the repository binds to. -/
def lv_event_code_t_LV_EVENT_PRESSED : Nat := 1

/-- Modelled from the spec: native constant `LV_EVENT_PRESSING`. -/
def lv_event_code_t_LV_EVENT_PRESSING : Nat := 2

/-- Modelled from the spec: native constant `LV_EVENT_PRESS_LOST`. -/
def lv_event_code_t_LV_EVENT_PRESS_LOST : Nat := 3

/-- Modelled from the spec: native constant `LV_EVENT_SHORT_CLICKED`. -/
def lv_event_code_t_LV_EVENT_SHORT_CLICKED : Nat := 4

/-- Modelled from the spec: native constant `LV_EVENT_LONG_PRESSED`. -/
def lv_event_code_t_LV_EVENT_LONG_PRESSED : Nat := 5

/-- Modelled from the spec: native constant `LV_EVENT_LONG_PRESSED_REPEAT`. -/
def lv_event_code_t_LV_EVENT_LONG_PRESSED_REPEAT : Nat := 6

/-- Modelled from the spec: native constant `LV_EVENT_CLICKED`. -/
def lv_event_code_t_LV_EVENT_CLICKED : Nat := 7

/-- Modelled from the spec: native constant `LV_EVENT_RELEASED`. -/
def lv_event_code_t_LV_EVENT_RELEASED : Nat := 8

/-- Modelled from the spec: native constant `LV_EVENT_DRAW_MAIN_BEGIN`. -/
def lv_event_code_t_LV_EVENT_DRAW_MAIN_BEGIN : Nat := 20

/-- Modelled from the spec: native constant `LV_EVENT_DRAW_MAIN`. -/
def lv_event_code_t_LV_EVENT_DRAW_MAIN : Nat := 21

/-- Modelled from the spec: native constant `LV_EVENT_DRAW_MAIN_END`. -/
def lv_event_code_t_LV_EVENT_DRAW_MAIN_END : Nat := 22

/-- Modelled from the spec: native constant `LV_EVENT_DRAW_POST_BEGIN`. -/
def lv_event_code_t_LV_EVENT_DRAW_POST_BEGIN : Nat := 23

/-- Modelled from the spec: native constant `LV_EVENT_DRAW_POST`. -/
def lv_event_code_t_LV_EVENT_DRAW_POST : Nat := 24

/-- Modelled from the spec: native constant `LV_EVENT_DRAW_POST_END`. -/
def lv_event_code_t_LV_EVENT_DRAW_POST_END : Nat := 25

/-- Modelled from the spec: native constant `LV_EVENT_DRAW_PART_BEGIN`. -/
def lv_event_code_t_LV_EVENT_DRAW_PART_BEGIN : Nat := 26

/-- Modelled from the spec: native constant `LV_EVENT_DRAW_PART_END`. -/
def lv_event_code_t_LV_EVENT_DRAW_PART_END : Nat := 27

/-- Modelled from the spec: native constant `LV_EVENT_VALUE_CHANGED`. -/
def lv_event_code_t_LV_EVENT_VALUE_CHANGED : Nat := 28

/-- Embeds `PointerEvent` from `support.rs` lines 281-286: events sent only by
pointer-like input devices. -/
inductive PointerEvent where
  | DragBegin
  | DragEnd
  | DragThrowBegin
  deriving DecidableEq, Repr

/-- Embeds `Event<T>` from `support.rs` lines 141-205: the typed event taxonomy,
generic over a widget-specific `Special` payload. -/
inductive Event (T : Type) where
  | Pressed
  | Pressing
  | PressLost
  | ShortClicked
  | Clicked
  | LongPressed
  | LongPressedRepeat
  | Released
  | ValueChanged
  | DrawMain
  | DrawMainBegin
  | DrawMainEnd
  | DrawPartBegin
  | DrawPartEnd
  | DrawPost
  | DrawPostBegin
  | DrawPostEnd
  | Focused
  | Pointer (p : PointerEvent)
  | Special (t : T)
  deriving DecidableEq, Repr

/-- Embeds `impl TryFrom<lv_event_code_t> for Event<S>` (`support.rs` lines
207-251): decode a native numeric event code into a typed event; the match
arms are tried in source order and the wildcard arm returns `Err(())`. -/
def Event.try_from {S : Type} (value : Nat) : Except Unit (Event S) :=
  if value = lv_event_code_t_LV_EVENT_PRESSED then .ok .Pressed
  else if value = lv_event_code_t_LV_EVENT_PRESSING then .ok .Pressing
  else if value = lv_event_code_t_LV_EVENT_PRESS_LOST then .ok .PressLost
  else if value = lv_event_code_t_LV_EVENT_SHORT_CLICKED then .ok .ShortClicked
  else if value = lv_event_code_t_LV_EVENT_CLICKED then .ok .Clicked
  else if value = lv_event_code_t_LV_EVENT_LONG_PRESSED then .ok .LongPressed
  else if value = lv_event_code_t_LV_EVENT_LONG_PRESSED_REPEAT then .ok .LongPressedRepeat
  else if value = lv_event_code_t_LV_EVENT_RELEASED then .ok .Released
  else if value = lv_event_code_t_LV_EVENT_VALUE_CHANGED then .ok .ValueChanged
  else if value = lv_event_code_t_LV_EVENT_DRAW_MAIN then .ok .DrawMain
  else if value = lv_event_code_t_LV_EVENT_DRAW_MAIN_BEGIN then .ok .DrawMainBegin
  else if value = lv_event_code_t_LV_EVENT_DRAW_MAIN_END then .ok .DrawMainEnd
  else if value = lv_event_code_t_LV_EVENT_DRAW_PART_BEGIN then .ok .DrawPartBegin
  else if value = lv_event_code_t_LV_EVENT_DRAW_PART_END then .ok .DrawPartEnd
  else if value = lv_event_code_t_LV_EVENT_DRAW_POST then .ok .DrawPost
  else if value = lv_event_code_t_LV_EVENT_DRAW_POST_BEGIN then .ok .DrawPostBegin
  else if value = lv_event_code_t_LV_EVENT_DRAW_POST_END then .ok .DrawPostEnd
  else .error ()

/-- Embeds `impl From<Event<S>> for lv_event_code_t` (`support.rs` lines 253-278):
encode a typed event into a native numeric code; variants not explicitly
listed (`Focused`, `Pointer(_)`, `Special(_)`) fall into the wildcard arm,
which the source maps to `LV_EVENT_CLICKED` under a `TODO` comment. -/
def lv_event_code_t_from {S : Type} (event : Event S) : Nat :=
  match event with
  | .Pressed => lv_event_code_t_LV_EVENT_PRESSED
  | .Pressing => lv_event_code_t_LV_EVENT_PRESSING
  | .PressLost => lv_event_code_t_LV_EVENT_PRESS_LOST
  | .ShortClicked => lv_event_code_t_LV_EVENT_SHORT_CLICKED
  | .Clicked => lv_event_code_t_LV_EVENT_CLICKED
  | .LongPressed => lv_event_code_t_LV_EVENT_LONG_PRESSED
  | .LongPressedRepeat => lv_event_code_t_LV_EVENT_LONG_PRESSED_REPEAT
  | .Released => lv_event_code_t_LV_EVENT_RELEASED
  | .ValueChanged => lv_event_code_t_LV_EVENT_VALUE_CHANGED
  | .DrawMain => lv_event_code_t_LV_EVENT_DRAW_MAIN
  | .DrawMainBegin => lv_event_code_t_LV_EVENT_DRAW_MAIN_BEGIN
  | .DrawMainEnd => lv_event_code_t_LV_EVENT_DRAW_MAIN_END
  | .DrawPartBegin => lv_event_code_t_LV_EVENT_DRAW_PART_BEGIN
  | .DrawPartEnd => lv_event_code_t_LV_EVENT_DRAW_PART_END
  | .DrawPost => lv_event_code_t_LV_EVENT_DRAW_POST
  | .DrawPostBegin => lv_event_code_t_LV_EVENT_DRAW_POST_BEGIN
  | .DrawPostEnd => lv_event_code_t_LV_EVENT_DRAW_POST_END
  | _ => lv_event_code_t_LV_EVENT_CLICKED

/-- The 17 native event codes the decode match explicitly enumerates, in
the order of the match arms of `support.rs` lines 230-248. -/
def supportedEventCodes : List Nat :=
  [lv_event_code_t_LV_EVENT_PRESSED,
   lv_event_code_t_LV_EVENT_PRESSING,
   lv_event_code_t_LV_EVENT_PRESS_LOST,
   lv_event_code_t_LV_EVENT_SHORT_CLICKED,
   lv_event_code_t_LV_EVENT_CLICKED,
   lv_event_code_t_LV_EVENT_LONG_PRESSED,
   lv_event_code_t_LV_EVENT_LONG_PRESSED_REPEAT,
   lv_event_code_t_LV_EVENT_RELEASED,
   lv_event_code_t_LV_EVENT_VALUE_CHANGED,
   lv_event_code_t_LV_EVENT_DRAW_MAIN,
   lv_event_code_t_LV_EVENT_DRAW_MAIN_BEGIN,
   lv_event_code_t_LV_EVENT_DRAW_MAIN_END,
   lv_event_code_t_LV_EVENT_DRAW_PART_BEGIN,
   lv_event_code_t_LV_EVENT_DRAW_PART_END,
   lv_event_code_t_LV_EVENT_DRAW_POST,
   lv_event_code_t_LV_EVENT_DRAW_POST_BEGIN,
   lv_event_code_t_LV_EVENT_DRAW_POST_END]

/-- Embeds `LvError` from `support.rs` lines 14-20: the generic LVGL error, a
closed enum with four variants and no payload. -/
inductive LvError where
  | InvalidReference
  | Uninitialized
  | LvOOMemory
  | AlreadyInUse
  deriving DecidableEq, Repr

/-- Modelled from the spec: `DisplayError`, the display-subsystem error
type declared in `src/lvgl/src/display.rs` (not among the provided
sources); its three variants are exactly the ones the exhaustive match of
`impl From<DisplayError> for LvError` in `support.rs` covers. -/
inductive DisplayError where
  | NotAvailable
  | FailedToRegister
  | NotRegistered
  deriving DecidableEq, Repr

/-- Embeds `impl From<DisplayError> for LvError` (`support.rs` lines 40-49);
named `from` in the source, which is a keyword here. -/
def LvError.from_display_error (err : DisplayError) : LvError :=
  match err with
  | .NotAvailable => .Uninitialized
  | .FailedToRegister => .InvalidReference
  | .NotRegistered => .Uninitialized

/-- Embeds `impl From<LvError> for DisplayError` (`support.rs` lines 51-61);
named `from` in the source, which is a keyword here. -/
def DisplayError.from_lv_error (err : LvError) : DisplayError :=
  match err with
  | .InvalidReference => .FailedToRegister
  | .Uninitialized => .NotAvailable
  | .LvOOMemory => .FailedToRegister
  | .AlreadyInUse => .FailedToRegister

/-- Modelled from the spec: the native `lv_color_t` channel fields as
produced by the `lvgl_sys::_LV_COLOR_MAKE` macro (the `lvgl_sys` bindings
are not among the provided sources); at 16-bit depth the channels hold
5/6/5-bit truncations, at 32-bit depth the full 8-bit values. -/
structure lv_color_t where
  red : Nat
  green : Nat
  blue : Nat
  deriving DecidableEq, Repr

/-- Modelled from the spec: `lvgl_sys::_LV_COLOR_MAKE` at the build's color
depth: at depth 16 each channel is the C truncation `r8 >> 3`, `g8 >> 2`,
`b8 >> 3` (masked to 5/6/5 bits); at depth 32 the channels keep the full
8-bit values. -/
def _LV_COLOR_MAKE (depth : Nat) (r g b : Nat) : lv_color_t :=
  if depth = 16 then ⟨r / 8 % 32, g / 4 % 64, b / 8 % 32⟩
  else ⟨r % 256, g % 256, b % 256⟩

/-- Embeds `Color` from `support.rs` lines 71-75: a transparent wrapper around the
native `lv_color_t`, here carrying the build's color depth explicitly. -/
structure Color where
  raw : lv_color_t
  deriving DecidableEq, Repr

/-- Embeds `Color::from_rgb` (`support.rs` lines 79-82): build the native color
via `_LV_COLOR_MAKE`; never fails. -/
def Color.from_rgb (depth : Nat) (rgb : Nat × Nat × Nat) : Color :=
  ⟨_LV_COLOR_MAKE depth rgb.1 rgb.2.1 rgb.2.2⟩

/-- Embeds `Color::from_raw` (`support.rs` lines 84-86). -/
def Color.from_raw (raw : lv_color_t) : Color := ⟨raw⟩

/-- Embeds `Color::r` (`support.rs` lines 88-90): modelled from the spec for the
getter macro `_LV_COLOR_GET_R`, which returns the stored red field. -/
def Color.r (c : Color) : Nat := c.raw.red

/-- Embeds `Color::g` (`support.rs` lines 92-94): returns the stored green field. -/
def Color.g (c : Color) : Nat := c.raw.green

/-- Embeds `Color::b` (`support.rs` lines 96-98): returns the stored blue field. -/
def Color.b (c : Color) : Nat := c.raw.blue

/-- Embeds `Align` from `support.rs` lines 308-330. -/
inductive Align where
  | Center
  | TopLeft
  | TopMid
  | TopRight
  | BottomLeft
  | BottomMid
  | BottomRight
  | LeftMid
  | RightMid
  | OutTopLeft
  | OutTopMid
  | OutTopRight
  | OutBottomLeft
  | OutBottomMid
  | OutBottomRight
  | OutLeftTop
  | OutLeftMid
  | OutLeftBottom
  | OutRightTop
  | OutRightMid
  | OutRightBottom
  deriving DecidableEq, Repr

/-- Modelled from the spec: the native `LV_ALIGN_*` constant table of the
build configuration (LVGL v8 `lv_align_t` values, `lvgl_sys` bindings not
among the provided sources), as a function of the variant. -/
def lv_align_const (a : Align) : Nat :=
  match a with
  | .Center => 9
  | .TopLeft => 1
  | .TopMid => 2
  | .TopRight => 3
  | .BottomLeft => 4
  | .BottomMid => 5
  | .BottomRight => 6
  | .LeftMid => 7
  | .RightMid => 8
  | .OutTopLeft => 10
  | .OutTopMid => 11
  | .OutTopRight => 12
  | .OutBottomLeft => 13
  | .OutBottomMid => 14
  | .OutBottomRight => 15
  | .OutLeftTop => 16
  | .OutLeftMid => 17
  | .OutLeftBottom => 18
  | .OutRightTop => 19
  | .OutRightMid => 20
  | .OutRightBottom => 21

/-- Embeds `impl From<Align> for u8` (`support.rs` lines 332-359): select the
native constant for the variant and narrow it with `as u8`. -/
def u8_from_align (value : Align) : Nat :=
  lv_align_const value % 256

/-- Embeds `TextAlign` from `support.rs` lines 361-366. -/
inductive TextAlign where
  | Auto
  | Center
  | Left
  | Right
  deriving DecidableEq, Repr

/-- Modelled from the spec: the native `LV_TEXT_ALIGN_*` constant table of
the build configuration (LVGL v8 values). -/
def lv_text_align_const (a : TextAlign) : Nat :=
  match a with
  | .Auto => 0
  | .Center => 2
  | .Left => 1
  | .Right => 3

/-- Embeds `impl From<TextAlign> for u8` (`support.rs` lines 368-378). -/
def u8_from_text_align (value : TextAlign) : Nat :=
  lv_text_align_const value % 256

/-- Embeds `AnimationState` from `support.rs` lines 381-384. -/
inductive AnimationState where
  | ON
  | OFF
  deriving DecidableEq, Repr

/-- Modelled from the spec: the native `LV_ANIM_ON` / `LV_ANIM_OFF`
constants of the build configuration (LVGL v8 values). -/
def lv_anim_enable_const (a : AnimationState) : Nat :=
  match a with
  | .ON => 1
  | .OFF => 0

/-- Embeds `impl From<AnimationState> for lv_anim_enable_t` (`support.rs` lines
386-393). -/
def lv_anim_enable_t_from (anim : AnimationState) : Nat :=
  lv_anim_enable_const anim

/-- Embeds `LabelLongMode` from `support.rs` lines 395-402: a `repr(u32)` enum
whose discriminants are the native `LV_LABEL_LONG_*` constants. -/
inductive LabelLongMode where
  | Clip
  | Dot
  | Scroll
  | ScrollCircular
  | Wrap
  deriving DecidableEq, Repr

/-- Modelled from the spec: the native `LV_LABEL_LONG_*` constant table of
the build configuration (LVGL v8 values), i.e. the `u32` discriminant of
each `LabelLongMode` variant. -/
def lv_label_long_const (m : LabelLongMode) : Nat :=
  match m with
  | .Clip => 4
  | .Dot => 1
  | .Scroll => 2
  | .ScrollCircular => 3
  | .Wrap => 0

/-- The checked `u32 -> u8` narrowing (`TryInto`), which the source applies
to a `LabelLongMode` discriminant before `unwrap_unchecked`. -/
def u32_try_into_u8 (n : Nat) : Option Nat :=
  if n < 256 then some n else none

/-- Embeds `impl From<LabelLongMode> for u8` (`support.rs` lines 404-408): the
source computes `(value as u32).try_into().unwrap_unchecked()`; the
narrowing is modelled by `u32_try_into_u8`. -/
def u8_from_label_long_mode (value : LabelLongMode) : Option Nat :=
  u32_try_into_u8 (lv_label_long_const value)

/-- Embeds `ObjFlag` from `support.rs` lines 425-525 (commented-out LVGL v9-only
variants excluded, as in the source). -/
inductive ObjFlag where
  | Hidden
  | Clickable
  | ClickFocusable
  | Checkable
  | Scrollable
  | ScrollElastic
  | ScrollMomentum
  | ScrollOne
  | ScrollChainHor
  | ScrollChainVer
  | ScrollChain
  | ScrollOnFocus
  | ScrollWithArrow
  | Snappable
  | PressLock
  | EventBubble
  | GestureBubble
  | AdvHitTest
  | IgnoreLayout
  | Floating
  | OverflowVisible
  | Layout1
  | Layout2
  | Widget1
  | Widget2
  | User1
  | User2
  | User3
  | User4
  deriving DecidableEq, Repr

/-- Modelled from the spec: the native `LV_OBJ_FLAG_*` bit-flag constant
table of the build configuration (LVGL v8 values; `SCROLL_CHAIN` is the
union of the two chain bits). -/
def lv_obj_flag_const (f : ObjFlag) : Nat :=
  match f with
  | .Hidden => 1
  | .Clickable => 2
  | .ClickFocusable => 4
  | .Checkable => 8
  | .Scrollable => 16
  | .ScrollElastic => 32
  | .ScrollMomentum => 64
  | .ScrollOne => 128
  | .ScrollChainHor => 256
  | .ScrollChainVer => 512
  | .ScrollChain => 768
  | .ScrollOnFocus => 1024
  | .ScrollWithArrow => 2048
  | .Snappable => 4096
  | .PressLock => 8192
  | .EventBubble => 16384
  | .GestureBubble => 32768
  | .AdvHitTest => 65536
  | .IgnoreLayout => 131072
  | .Floating => 262144
  | .OverflowVisible => 524288
  | .Layout1 => 8388608
  | .Layout2 => 16777216
  | .Widget1 => 33554432
  | .Widget2 => 67108864
  | .User1 => 134217728
  | .User2 => 268435456
  | .User3 => 536870912
  | .User4 => 1073741824

/-- Embeds `impl From<ObjFlag> for lv_obj_flag_t` (`support.rs` lines 527-566):
select the native constant and cast it to the (32-bit) flag type. -/
def lv_obj_flag_t_from (obj_flag : ObjFlag) : Nat :=
  lv_obj_flag_const obj_flag % 4294967296

/-- Outcome of one trampoline dispatch: the event is dropped without
invoking the closure, the process panics (the `unwrap` on
`T::from_raw` fails), or the user closure is invoked with a typed widget
handle and a typed event. -/
inductive TrampolineResult (W S : Type) where
  | dropped
  | panicked
  | invoked (w : W) (e : Event S)
  deriving DecidableEq, Repr

/-- The list of (widget, event) closure invocations a dispatch performs:
one for `invoked`, none otherwise. -/
def TrampolineResult.calls {W S : Type} : TrampolineResult W S → List (W × Event S)
  | .invoked w e => [(w, e)]
  | _ => []

/-- Embeds `event_callback` (`support.rs` lines 288-305): the generic trampoline.
`code` is the native event code of the record, `target` its object pointer
(`none` models null), and `from_raw` the widget reconstruction capability
`T::from_raw` of the instantiated widget type. The source decodes the
code (dropping the event on failure), checks the pointer for null
(dropping on null), calls `T::from_raw(ptr).unwrap()` (panicking on
failure), and then invokes the closure stored in the object's user-data
slot exactly once with the (widget, event) pair; the closure invocation is
represented by the `invoked` outcome. -/
def event_callback {Ptr W S : Type} (from_raw : Ptr → Option W)
    (code : Nat) (target : Option Ptr) : TrampolineResult W S :=
  match Event.try_from (S := S) code with
  | .ok ev =>
    match target with
    | some obj_ptr =>
      match from_raw obj_ptr with
      | some object => .invoked object ev
      | none => .panicked
    | none => .dropped
  | .error _ => .dropped

/-- Helper: a variant is explicitly listed in the encode match of
`support.rs` lines 255-272 precisely when it is not `Focused`, `Pointer(_)`
or `Special(_)` (those fall into the wildcard arm). -/
def Event.listed_in_encode {S : Type} : Event S → Bool
  | .Focused => false
  | .Pointer _ => false
  | .Special _ => false
  | _ => true

/-- Helper: a code outside the 17 enumerated constants falls through every
arm of the decode match and hits the wildcard `Err(())` arm. -/
theorem try_from_eq_error_of_not_mem (S : Type) (n : Nat)
    (h : n ∉ supportedEventCodes) : Event.try_from (S := S) n = .error () := by
  simp only [supportedEventCodes, List.mem_cons, List.not_mem_nil, or_false,
    not_or] at h
  obtain ⟨h1, h2, h3, h4, h5, h6, h7, h8, h9, h10, h11, h12, h13, h14, h15,
    h16, h17⟩ := h
  simp [Event.try_from, h1, h2, h3, h4, h5, h6, h7, h8, h9, h10, h11, h12,
    h13, h14, h15, h16, h17]

/-- C1: for every native event code C among the 17 codes the taxonomy
explicitly supports, `Event::try_from` succeeds with some variant V and
encoding V back via `From<Event<S>> for lv_event_code_t` yields exactly C. -/
theorem C1_decode_encode_round_trip (S : Type) (c : Nat)
    (h : c ∈ supportedEventCodes) :
    ∃ v : Event S, Event.try_from c = .ok v ∧ lv_event_code_t_from v = c := by
  simp only [supportedEventCodes, List.mem_cons, List.not_mem_nil,
    or_false] at h
  rcases h with rfl | rfl | rfl | rfl | rfl | rfl | rfl | rfl | rfl | rfl |
    rfl | rfl | rfl | rfl | rfl | rfl | rfl <;> exact ⟨_, rfl, rfl⟩

/-- Witness for C1 at the `LV_EVENT_PRESSED` code. -/
theorem C1_decode_encode_round_trip_witness :
    lv_event_code_t_LV_EVENT_PRESSED ∈ supportedEventCodes ∧
    ∃ v : Event Unit,
      Event.try_from lv_event_code_t_LV_EVENT_PRESSED = .ok v ∧
      lv_event_code_t_from v = lv_event_code_t_LV_EVENT_PRESSED :=
  ⟨by decide, C1_decode_encode_round_trip Unit _ (by decide)⟩

/-- C2: the claim requires that no unlisted variant encodes to a code
belonging to a different listed variant; the code violates it: both
`Pointer(DragBegin)` and `Special(())` (and `Focused`) encode to
`LV_EVENT_CLICKED`, the code of the listed `Clicked` variant. -/
theorem C2_unlisted_variants_encode_to_clicked :
    lv_event_code_t_from (Event.Pointer (T := Unit) .DragBegin) =
      lv_event_code_t_LV_EVENT_CLICKED ∧
    lv_event_code_t_from (Event.Special ()) =
      lv_event_code_t_LV_EVENT_CLICKED ∧
    lv_event_code_t_from (Event.Focused : Event Unit) =
      lv_event_code_t_LV_EVENT_CLICKED ∧
    Event.try_from (S := Unit) lv_event_code_t_LV_EVENT_CLICKED =
      .ok Event.Clicked :=
  ⟨rfl, rfl, rfl, rfl⟩

/-- C3: for every native numeric code that is not one of the 17 enumerated
codes, `Event::try_from` returns `Err(())`; the function is total (defined
for every input) and never panics. -/
theorem C3_unrecognized_code_is_err (S : Type) (n : Nat)
    (h : n ∉ supportedEventCodes) : Event.try_from (S := S) n = .error () :=
  try_from_eq_error_of_not_mem S n h

/-- Witness for C3 at code 0 (`LV_EVENT_ALL`, not in the supported set). -/
theorem C3_unrecognized_code_is_err_witness :
    (0 : Nat) ∉ supportedEventCodes ∧
    Event.try_from (S := Unit) 0 = .error () :=
  ⟨by decide, C3_unrecognized_code_is_err Unit 0 (by decide)⟩

/-- C4: both error conversions are total pure mappings; on the return trip
`LvOOMemory`, `AlreadyInUse` and `InvalidReference` all collapse to
`FailedToRegister`, and `Uninitialized` maps to `NotAvailable`. -/
theorem C4_error_conversions :
    (∀ e : DisplayError, LvError.from_display_error e =
      match e with
      | .NotAvailable => .Uninitialized
      | .FailedToRegister => .InvalidReference
      | .NotRegistered => .Uninitialized) ∧
    DisplayError.from_lv_error .LvOOMemory = .FailedToRegister ∧
    DisplayError.from_lv_error .AlreadyInUse = .FailedToRegister ∧
    DisplayError.from_lv_error .InvalidReference = .FailedToRegister ∧
    DisplayError.from_lv_error .Uninitialized = .NotAvailable := by
  refine ⟨fun e => ?_, rfl, rfl, rfl, rfl⟩
  cases e <;> rfl

/-- C5: when the event code is unrecognized or the target pointer is null,
the trampoline drops the event: the closure is not invoked (no calls), no
error is surfaced and no panic occurs. -/
theorem C5_trampoline_silent_drop (Ptr W S : Type)
    (from_raw : Ptr → Option W) (code : Nat) (target : Option Ptr)
    (h : code ∉ supportedEventCodes ∨ target = none) :
    event_callback (S := S) from_raw code target = .dropped ∧
    (event_callback (S := S) from_raw code target).calls = [] := by
  rcases h with h | h
  · have hd := try_from_eq_error_of_not_mem S code h
    simp [event_callback, hd, TrampolineResult.calls]
  · subst h
    cases hd : Event.try_from (S := S) code <;>
      simp [event_callback, hd, TrampolineResult.calls]

/-- Witness for C5 at code 0 with a non-null pointer. -/
theorem C5_trampoline_silent_drop_witness :
    (0 : Nat) ∉ supportedEventCodes ∧
    event_callback (S := Unit) (fun _ : Unit => some 0) 0 (some ()) =
      .dropped :=
  ⟨by decide,
    (C5_trampoline_silent_drop Unit Nat Unit (fun _ => some 0) 0 (some ())
      (Or.inl (by decide))).1⟩

/-- C6: with a recognized code, a non-null target pointer on which
`T::from_raw` succeeds, and the user-data closure of the instantiated
type, the trampoline invokes the closure exactly once, with the widget
reconstructed from the pointer and the event decoded from the code. -/
theorem C6_trampoline_invokes_closure_once (Ptr W S : Type)
    (from_raw : Ptr → Option W) (code : Nat) (p : Ptr) (w : W)
    (ev : Event S) (hdec : Event.try_from (S := S) code = .ok ev)
    (hraw : from_raw p = some w) :
    event_callback from_raw code (some p) = .invoked w ev ∧
    (event_callback from_raw code (some p)).calls = [(w, ev)] := by
  simp [event_callback, hdec, hraw, TrampolineResult.calls]

/-- Witness for C6 at the `LV_EVENT_PRESSED` code. -/
theorem C6_trampoline_invokes_closure_once_witness :
    event_callback (fun _ : Unit => some 0) 1 (some ()) =
      .invoked 0 (Event.Pressed : Event Unit) ∧
    (event_callback (fun _ : Unit => some 0) 1
      (some ())).calls = [(0, (Event.Pressed : Event Unit))] :=
  C6_trampoline_invokes_closure_once Unit Nat Unit (fun _ => some 0) 1 () 0
    .Pressed rfl rfl

/-- C7: with a recognized code and a non-null target pointer on which
`T::from_raw` fails, the trampoline panics (the `unwrap` aborts); the
failure is reachable, not silently dropped. -/
theorem C7_trampoline_panics_on_from_raw_failure (Ptr W S : Type)
    (from_raw : Ptr → Option W) (code : Nat) (p : Ptr) (ev : Event S)
    (hdec : Event.try_from (S := S) code = .ok ev)
    (hraw : from_raw p = none) :
    event_callback (S := S) from_raw code (some p) = .panicked := by
  simp [event_callback, hdec, hraw]

/-- Witness for C7 at the `LV_EVENT_PRESSED` code with a failing
`from_raw`. -/
theorem C7_trampoline_panics_on_from_raw_failure_witness :
    event_callback (W := Nat) (fun _ : Unit => none) 1 (some ()) =
      (.panicked : TrampolineResult Nat Unit) :=
  C7_trampoline_panics_on_from_raw_failure Unit Nat Unit (fun _ => none) 1 ()
    .Pressed rfl rfl

/-- C8: `Color::from_rgb` is pure and never fails; at 32-bit depth the
channel accessors decode back exactly (r, g, b); at 16-bit depth they
decode the documented 5/6/5 truncations, in particular (206, 51, 255)
decodes to (25, 12, 31). -/
theorem C8_color_depth_decoding (r g b : Nat) (hr : r < 256) (hg : g < 256)
    (hb : b < 256) :
    ((Color.from_rgb 32 (r, g, b)).r = r ∧
     (Color.from_rgb 32 (r, g, b)).g = g ∧
     (Color.from_rgb 32 (r, g, b)).b = b) ∧
    ((Color.from_rgb 16 (r, g, b)).r = r / 8 ∧
     (Color.from_rgb 16 (r, g, b)).g = g / 4 ∧
     (Color.from_rgb 16 (r, g, b)).b = b / 8) ∧
    ((Color.from_rgb 16 (206, 51, 255)).r = 25 ∧
     (Color.from_rgb 16 (206, 51, 255)).g = 12 ∧
     (Color.from_rgb 16 (206, 51, 255)).b = 31) := by
  refine ⟨⟨?_, ?_, ?_⟩, ⟨?_, ?_, ?_⟩, by decide⟩ <;>
    simp [Color.from_rgb, Color.r, Color.g, Color.b, _LV_COLOR_MAKE] <;>
    omega

/-- Witness for C8 at (206, 51, 255). -/
theorem C8_color_depth_decoding_witness :
    (Color.from_rgb 32 (206, 51, 255)).r = 206 ∧
    (Color.from_rgb 16 (206, 51, 255)).r = 25 :=
  ⟨(C8_color_depth_decoding 206 51 255 (by decide) (by decide)
      (by decide)).1.1,
   (C8_color_depth_decoding 206 51 255 (by decide) (by decide)
      (by decide)).2.2.1⟩

/-- C9: each enum-to-integer conversion is a total pure function returning
exactly the native constant of its variant; the `as u8` narrowing on
`Align`/`TextAlign` never truncates (every constant fits in a `u8`), the
unchecked `u32 -> u8` narrowing in `From<LabelLongMode> for u8` always
succeeds (every `LV_LABEL_LONG_*` constant fits in a `u8`), and every
`ObjFlag` constant fits in the 32-bit flag type. -/
theorem C9_enum_conversion_tables :
    (∀ a : Align, lv_align_const a < 256 ∧
      u8_from_align a = lv_align_const a) ∧
    (∀ a : TextAlign, lv_text_align_const a < 256 ∧
      u8_from_text_align a = lv_text_align_const a) ∧
    (∀ a : AnimationState,
      lv_anim_enable_t_from a = lv_anim_enable_const a) ∧
    (∀ m : LabelLongMode, lv_label_long_const m < 256 ∧
      u8_from_label_long_mode m = some (lv_label_long_const m)) ∧
    (∀ f : ObjFlag, lv_obj_flag_const f < 4294967296 ∧
      lv_obj_flag_t_from f = lv_obj_flag_const f) := by
  refine ⟨fun a => ?_, fun a => ?_, fun a => ?_, fun m => ?_, fun f => ?_⟩
  · cases a <;> exact ⟨by decide, rfl⟩
  · cases a <;> exact ⟨by decide, rfl⟩
  · cases a <;> rfl
  · cases m <;> exact ⟨by decide, rfl⟩
  · cases f <;> exact ⟨by decide, rfl⟩

/-- C10 counterexample: the claim quantifies over every variant except
`Pointer(_)` and `Special(_)`, but `Focused` is also not listed in the
encode match: it encodes to the clicked code, which decodes to `Clicked`,
not back to `Focused`. -/
theorem C10_focused_does_not_round_trip :
    Event.try_from (S := Unit)
        (lv_event_code_t_from (Event.Focused : Event Unit)) =
      .ok Event.Clicked ∧
    (Event.Clicked : Event Unit) ≠ Event.Focused :=
  ⟨rfl, by decide⟩

/-- C10 (amended): for every variant explicitly listed in the encode
mapping — every variant except `Focused`, `Pointer(_)` and `Special(_)` —
decoding the encoded code recovers the same variant. -/
theorem C10_encode_decode_round_trip (S : Type) (v : Event S)
    (h : v.listed_in_encode = true) :
    Event.try_from (lv_event_code_t_from v) = .ok v := by
  cases v <;> first
    | rfl
    | simp [Event.listed_in_encode] at h

/-- Witness for the amended C10 at the `Pressed` variant. -/
theorem C10_encode_decode_round_trip_witness :
    (Event.Pressed : Event Unit).listed_in_encode = true ∧
    Event.try_from (lv_event_code_t_from (Event.Pressed : Event Unit)) =
      .ok (Event.Pressed : Event Unit) :=
  ⟨rfl, C10_encode_decode_round_trip Unit .Pressed rfl⟩

end LvglSupport
